import Mathlib

/-!
Shallow embedding of the work-dispatch and tool-calling core of the wallo
repository (src/wallo/worker.py and src/wallo/llmProcessor.py), together
with theorems settling the specification claims about it.

Conventions of the embedding:
* Python strings are Lean `String`s; Python string truthiness (`s or t`)
  becomes an explicit emptiness test.
* Code that may raise is modelled with `Except String α`, the error string
  being the Python exception's message (`str(e)`).
* External collaborators (the model client, the tool capabilities, the
  RAG retriever, the PDF extractor, the audio parser, the TTS client and
  the file writer) are opaque function-valued fields of the environment,
  exactly as the spec treats them (black-box collaborators).
* Qt signal emissions (`finished.emit` / `error.emit`) are modelled as a
  list of `WorkOutcome` values produced by one run of the worker.
-/

/-- Roles of conversation turns (system / user / assistant / tool messages
of the LangChain history used by worker.py and llmProcessor.py). -/
inductive Role where
  | system
  | user
  | assistant
  | tool
deriving DecidableEq, Repr

/-- A tool call requested by the model: name, argument payload (kept opaque
as a string), and call id — the dict `\x7b'name': ..., 'args': ..., 'id': ...\x7d`
consumed in Worker.runAgents. -/
structure ToolCall where
  name : String
  args : String
  callId : String
deriving DecidableEq, Repr

/-- A conversation turn (HumanMessage / AIMessage / ToolMessage /
SystemMessage).  `toolCalls` is non-empty only on assistant turns
(`aiMessage.tool_calls`); `toolCallId` is set only on tool turns. -/
structure Msg where
  role : Role
  content : String
  toolCalls : List ToolCall := []
  toolCallId : String := ""
deriving DecidableEq, Repr

/-- HumanMessage(content=prompt) -/
def Msg.userMsg (content : String) : Msg :=
  { role := Role.user, content := content }

/-- ToolMessage(content=str(toolResult), tool_call_id=toolCallId) -/
def Msg.toolMsg (content : String) (callId : String) : Msg :=
  { role := Role.tool, content := content, toolCallId := callId }

/-- SystemMessage(content=...) -/
def Msg.systemMsg (content : String) : Msg :=
  { role := Role.system, content := content }

/-- A tool capability: a name and an invokable that takes the argument
payload and returns a string result or raises (error string = message). -/
structure Tool where
  name : String
  invoke : String → Except String String

/-- Number of turns of a given role in a message list. -/
def countRole (r : Role) (ms : List Msg) : Nat :=
  (ms.filter (fun m => m.role == r)).length

/-- Python `str(KeyError(name))`: the repr of the missing key. -/
def keyErrorStr (name : String) : String :=
  "'" ++ name ++ "'"

/-- State of Worker.runAgents' loop: the working `messages` list and the
`newMessages` accumulator. -/
structure LoopSt where
  messages : List Msg
  newMessages : List Msg
deriving DecidableEq, Repr

/-- The body of `for toolCall in toolCalls` in Worker.runAgents
(worker.py lines 125-141).  `toolMap[name]` is a Python dict access and
raises `KeyError(name)` when the name is absent (the dict is built as
`\x7bt.name: t for t in agentTools\x7d`, so its values are tool objects and the
`if toolMap[name] is None` guard is never taken for a present key); an
exception from `invoke` is caught and turned into the failure string.
Each produced ToolMessage is appended to both lists. -/
def execToolCalls (tools : List Tool) (st : LoopSt) :
    List ToolCall → Except String LoopSt
  | [] => Except.ok st
  | tc :: rest =>
    match tools.find? (fun t => t.name == tc.name) with
    | none => Except.error (keyErrorStr tc.name)
    | some t =>
      let toolResult :=
        match t.invoke tc.args with
        | Except.ok r => r
        | Except.error e => "Tool '" ++ tc.name ++ "' failed: " ++ e
      let tm := Msg.toolMsg toolResult tc.callId
      execToolCalls tools
        { messages := st.messages ++ [tm], newMessages := st.newMessages ++ [tm] }
        rest

/-- The `for _ in range(6)` loop of Worker.runAgents (worker.py lines
116-141): invoke the tool-bound model, append the assistant turn to both
lists, stop if it carries no tool calls, otherwise execute every tool call
and continue with the next round. -/
def agentLoop (llm : List Msg → Msg) (tools : List Tool) :
    Nat → LoopSt → Except String LoopSt
  | 0, st => Except.ok st
  | fuel + 1, st =>
    let aiMessage := llm st.messages
    let st1 : LoopSt :=
      { messages := st.messages ++ [aiMessage],
        newMessages := st.newMessages ++ [aiMessage] }
    if aiMessage.toolCalls.isEmpty then
      Except.ok st1
    else
      match execToolCalls tools st1 aiMessage.toolCalls with
      | Except.error e => Except.error e
      | Except.ok st2 => agentLoop llm tools fuel st2

/-- Worker.runAgents (worker.py lines 100-150).  Returns the final answer
content, the working message list, the `newMessages` accumulator and the
conversation history after the post-loop `history.add_message` appends
(the history object is mutated only there; `add_message` on the in-memory
history is a plain append).  Model-call or dict-lookup exceptions
propagate as `Except.error`. -/
def runAgents (llm : List Msg → Msg) (tools : List Tool)
    (history : List Msg) (prompt : String) :
    Except String (String × List Msg × List Msg × List Msg) :=
  let userMessage := Msg.userMsg prompt
  let st0 : LoopSt := { messages := history ++ [userMessage], newMessages := [userMessage] }
  match agentLoop llm tools 6 st0 with
  | Except.error e => Except.error e
  | Except.ok stF =>
    let newHistory := history ++ stF.newMessages
    let content := ((stF.messages.getLast?).map Msg.content).getD ""
    Except.ok (content, stF.messages, stF.newMessages, newHistory)

/-- Python string truthiness choice `a or b`: `a` when non-empty, else `b`
(used in `selectedText or prompt`, worker.py line 44). -/
def pyOrStr (a b : String) : String :=
  if a == "" then b else a

/-- The RAG context block of worker.py lines 42-47: empty when the
retriever produced no snippets (Python list truthiness), otherwise the
retrieved snippets joined by blank lines and wrapped in the Context
fence. -/
def ragContextOf (retrieved : List String) : String :=
  if retrieved.isEmpty then ""
  else "\n\nContext:\n---\n" ++ String.intercalate "\n\n" retrieved ++ "\n---\n"

/-- The prompt assembly of worker.py line 53:
`prompt = f"..."` concatenating base prompt, RAG context block, PDF
context and the selected text, in that order. -/
def assembledPrompt (prompt : String) (retrieved : List String)
    (pdfContext selectedText : String) : String :=
  prompt ++ ragContextOf retrieved ++ pdfContext ++ selectedText

/-- One emission of the Worker's `finished` (isSuccess = true, payload =
content) or `error` (isSuccess = false, payload = reason) signal, both
carrying the sender id (the request identity) and the work type. -/
structure WorkOutcome where
  isSuccess : Bool
  payload : String
  senderID : String
  workType : String
deriving DecidableEq, Repr

/-- The environment of one Worker execution: the work type, the request
identity, and the `objects` dict fields together with the external
collaborators each branch of Worker.run uses.  Collaborator calls that may
raise return `Except String`. -/
structure Env where
  workType : String
  senderID : String
  /-- objects['prompt'] -/
  prompt : String := ""
  /-- objects['selectedText'] -/
  selectedText : String := ""
  /-- objects['pdfFilePath'] -/
  pdfFilePath : String := ""
  /-- objects['ragRunnable'] (None or a retriever: query to snippet list) -/
  ragRunnable : Option (String → Except String (List String)) := none
  /-- self.documentProcessor.extractTextFromPdf (collaborator outside src) -/
  extractTextFromPdf : String → Except String String := fun _ => Except.ok ""
  /-- objects['messageHistory'].messages -/
  messageHistory : List Msg := []
  /-- objects['agentTools'] (None or the tool list) -/
  agentTools : Option (List Tool) := none
  /-- hasattr(objects['llmClient'], 'bind_tools') -/
  bindToolsSupported : Bool := false
  /-- objects['llmClient'].bind_tools(agentTools).invoke -/
  llmClient : List Msg → Msg := fun _ => Msg.userMsg ""
  /-- objects['runnable'].invoke(..., session 'global'), reduced to its content -/
  runnableInvoke : String → Except String String := fun _ => Except.ok ""
  /-- objects['path'] (audio file path) -/
  path : String := ""
  /-- runnable.parse(Blob.from_path(path)), reduced to the docs' page_content -/
  parseAudio : String → Except String (List String) := fun _ => Except.ok []
  /-- objects['filePaths'] for ingestRAG (a list of paths) -/
  filePaths : List String := []
  /-- objects['runnable'].ingestPaths -/
  ingestPaths : List String → Except String Nat := fun _ => Except.ok 0
  /-- objects['content'] for tts -/
  content : String := ""
  /-- objects['filePaths'] for tts (a single output path) -/
  ttsFilePath : String := ""
  /-- client.audio.speech.create(...).read(): text to audio bytes -/
  ttsCreate : String → Except String (List Nat) := fun _ => Except.ok []
  /-- open(filePath,'wb').write -/
  writeFile : String → List Nat → Except String Unit := fun _ _ => Except.ok ()

/-- The `workType == 'chatAPI'` branch of Worker.run (worker.py lines
35-66), reduced to the content it emits: RAG retrieval (query is
`selectedText or prompt`), PDF context extraction, prompt assembly, then
either the agent loop (when agentTools is not None and the client supports
bind_tools) or the plain history-bound invoke. -/
def chatBranch (env : Env) : Except String String :=
  (match env.ragRunnable with
    | none => Except.ok []
    | some retrieve => retrieve (pyOrStr env.selectedText env.prompt)).bind
  fun retrieved =>
  (if env.pdfFilePath == "" then Except.ok ""
    else (env.extractTextFromPdf env.pdfFilePath).map (fun t => t ++ "\n\n")).bind
  fun pdfContext =>
  let fullPrompt := assembledPrompt env.prompt retrieved pdfContext env.selectedText
  match env.agentTools, env.bindToolsSupported with
  | some tools, true =>
    (runAgents env.llmClient tools env.messageHistory fullPrompt).map
      (fun (r : String × List Msg × List Msg × List Msg) => r.1)
  | _, _ => env.runnableInvoke fullPrompt

/-- The `workType == 'transcribeAudio'` branch (worker.py lines 69-76):
parse the audio blob; content is the first doc's text, or empty. -/
def transcribeBranch (env : Env) : Except String String :=
  (env.parseAudio env.path).map (fun docs => docs.headD "")

/-- The `workType == 'ingestRAG'` branch (worker.py lines 79-83): ingest
the paths and report the chunk count. -/
def ingestBranch (env : Env) : Except String String :=
  (env.ingestPaths env.filePaths).map
    (fun chunks => "Success | Chunks indexed: " ++ toString chunks)

/-- The `workType == 'tts'` branch (worker.py lines 85-92): synthesize
speech and write the bytes to the output path.  It emits no signal. -/
def ttsBranch (env : Env) : Except String Unit :=
  (env.ttsCreate env.content).bind (fun bytes => env.writeFile env.ttsFilePath bytes)

/-- The body of Worker.run's try block (worker.py lines 34-94): the
if/elif chain on workType, each recognised branch mapped to the signal
emissions it performs, the final else emitting the unknown-work-type
error. -/
def runBody (env : Env) : Except String (List WorkOutcome) :=
  if env.workType == "chatAPI" then
    (chatBranch env).map
      (fun c => [{ isSuccess := true, payload := c,
                   senderID := env.senderID, workType := env.workType }])
  else if env.workType == "transcribeAudio" then
    (transcribeBranch env).map
      (fun c => [{ isSuccess := true, payload := c,
                   senderID := env.senderID, workType := env.workType }])
  else if env.workType == "ingestRAG" then
    (ingestBranch env).map
      (fun c => [{ isSuccess := true, payload := c,
                   senderID := env.senderID, workType := env.workType }])
  else if env.workType == "tts" then
    (ttsBranch env).map (fun _ => [])
  else
    Except.ok [{ isSuccess := false, payload := "Unknown work type",
                 senderID := env.senderID, workType := env.workType }]

/-- Worker.run (worker.py lines 32-97): the try/except wrapper — any
exception raised in a branch is caught and emitted as a single `error`
signal carrying `str(e)`, the sender id and the work type.  The result is
the list of signal emissions of one run. -/
def runWorker (env : Env) : List WorkOutcome :=
  match runBody env with
  | Except.ok out => out
  | Except.error e =>
    [{ isSuccess := false, payload := e,
       senderID := env.senderID, workType := env.workType }]

/-- One entry of the configuration's system-prompts list
(name and system-prompt fields). -/
structure SystemPromptEntry where
  name : String
  systemPrompt : String
deriving DecidableEq, Repr

/-- The mutable state of LLMProcessor that setSystemPrompt touches. -/
structure ProcState where
  systemPrompt : String
  messageHistory : List Msg
  systemPromptInjected : Bool
deriving DecidableEq, Repr

/-- LLMProcessor.setSystemPrompt (llmProcessor.py lines 52-68): find the
first configured prompt of that name; on a hit, store it, append a new
SystemMessage to the history and set the injected flag (add_message on the
in-memory history is a plain append and does not raise); on a miss, raise
ValueError. -/
def setSystemPrompt (config : List SystemPromptEntry) (st : ProcState)
    (promptName : String) : Except String ProcState :=
  match config.find? (fun p => p.name == promptName) with
  | some p =>
    Except.ok { systemPrompt := p.systemPrompt,
                messageHistory := st.messageHistory ++ [Msg.systemMsg p.systemPrompt],
                systemPromptInjected := true }
  | none =>
    Except.error ("System prompt '" ++ promptName ++ "' not found in configuration")

/-! ### Concrete stubs used by the claim theorems -/

/-- A tool capability named `echo` that returns its argument. -/
def echoTool : Tool := { name := "echo", invoke := fun a => Except.ok a }

/-- A model stub that always requests a call of the absent tool
`missing`. -/
def stubMissingLLM : List Msg → Msg := fun _ =>
  { role := Role.assistant, content := "calling",
    toolCalls := [{ name := "missing", args := "x", callId := "id1" }] }

/-- A model stub that requests a call of the available `echo` tool on
every round. -/
def stubEchoLLM : List Msg → Msg := fun _ =>
  { role := Role.assistant, content := "calling",
    toolCalls := [{ name := "echo", args := "x", callId := "id1" }] }

/-- A model stub that immediately answers without tool calls. -/
def stubPlainLLM : List Msg → Msg := fun _ =>
  { role := Role.assistant, content := "hi" }

/-- A tool capability that always raises. -/
def boomTool : Tool := { name := "boom", invoke := fun _ => Except.error "kaboom" }

/-- A model stub that always requests the raising `boom` tool. -/
def stubBoomLLM : List Msg → Msg := fun _ =>
  { role := Role.assistant, content := "calling",
    toolCalls := [{ name := "boom", args := "x", callId := "id1" }] }

/-- A chatAPI environment whose model requests the absent tool
`missing` while only `echo` is registered. -/
def missingToolEnv : Env :=
  { workType := "chatAPI", senderID := "s1",
    agentTools := some [echoTool], bindToolsSupported := true,
    llmClient := stubMissingLLM }

/-- A tts environment whose speech synthesis and file write both succeed
(the default collaborators). -/
def ttsSilentEnv : Env := { workType := "tts", senderID := "s2" }

/-- A one-entry system-prompts configuration. -/
def promptConfigC3 : List SystemPromptEntry :=
  [{ name := "p", systemPrompt := "S" }]

/-- The initial LLMProcessor state (constructor defaults). -/
def procState0 : ProcState :=
  { systemPrompt := "You are a helpful assistant.",
    messageHistory := [], systemPromptInjected := false }

/-- The state after one injection of prompt `p`. -/
def procState1 : ProcState :=
  (setSystemPrompt promptConfigC3 procState0 "p").toOption.getD procState0

/-- The state after a second injection of the same prompt `p`. -/
def procState2 : ProcState :=
  (setSystemPrompt promptConfigC3 procState1 "p").toOption.getD procState1


/-! ### Helper lemmas about the tool-call loop -/

/-- Role counts add over list append. -/
theorem countRole_append (r : Role) (xs ys : List Msg) :
    countRole r (xs ++ ys) = countRole r xs + countRole r ys := by
  simp [countRole, List.filter_append]

/-- A single message contributes at most one turn of any role. -/
theorem countRole_singleton_le (r : Role) (m : Msg) : countRole r [m] ≤ 1 := by
  simpa [countRole] using List.length_filter_le (fun x => x.role == r) [m]

/-- Executing tool calls appends only tool-role turns, so it preserves the
number of assistant turns in the accumulator. -/
theorem execToolCalls_assistant (tools : List Tool) :
    ∀ tcs st st', execToolCalls tools st tcs = Except.ok st' →
      countRole Role.assistant st'.newMessages = countRole Role.assistant st.newMessages := by
  intro tcs
  induction tcs with
  | nil => intro st st' h; simp [execToolCalls] at h; rw [h]
  | cons tc rest ih =>
    intro st st' h
    simp only [execToolCalls] at h
    cases hf : tools.find? (fun t => t.name == tc.name) with
    | none => rw [hf] at h; exact absurd h (by simp)
    | some t =>
      rw [hf] at h
      have := ih _ _ h
      rw [this]
      simp [countRole_append, countRole, Msg.toolMsg]

/-- Each loop round appends at most one assistant turn, so the assistant
count of the accumulator grows by at most the remaining fuel. -/
theorem agentLoop_assistant_le (llm : List Msg → Msg) (tools : List Tool) :
    ∀ fuel st st', agentLoop llm tools fuel st = Except.ok st' →
      countRole Role.assistant st'.newMessages ≤ countRole Role.assistant st.newMessages + fuel := by
  intro fuel
  induction fuel with
  | zero => intro st st' h; simp [agentLoop] at h; subst h; omega
  | succ n ih =>
    intro st st' h
    simp only [agentLoop] at h
    have hsingle := countRole_singleton_le Role.assistant (llm st.messages)
    by_cases hc : (llm st.messages).toolCalls.isEmpty
    · rw [if_pos hc] at h
      cases h
      rw [countRole_append]
      omega
    · rw [if_neg hc] at h
      cases he : execToolCalls tools
          { messages := st.messages ++ [llm st.messages],
            newMessages := st.newMessages ++ [llm st.messages] }
          (llm st.messages).toolCalls with
      | error e => rw [he] at h; exact absurd h (by simp)
      | ok st2 =>
        rw [he] at h
        have h2 := ih _ _ h
        have h3 := execToolCalls_assistant tools _ _ _ he
        rw [h3, countRole_append] at h2
        omega

/-- Executing tool calls preserves the loop invariant that the working
list is the fixed context followed by the accumulator. -/
theorem execToolCalls_inv (tools : List Tool) (pre : List Msg) :
    ∀ tcs st st', execToolCalls tools st tcs = Except.ok st' →
      st.messages = pre ++ st.newMessages →
      st'.messages = pre ++ st'.newMessages := by
  intro tcs
  induction tcs with
  | nil => intro st st' h hinv; simp [execToolCalls] at h; subst h; exact hinv
  | cons tc rest ih =>
    intro st st' h hinv
    simp only [execToolCalls] at h
    cases hf : tools.find? (fun t => t.name == tc.name) with
    | none => rw [hf] at h; exact absurd h (by simp)
    | some t =>
      rw [hf] at h
      exact ih _ _ h (by simp [hinv])

/-- Executing tool calls only appends, so the accumulator's first element
is preserved. -/
theorem execToolCalls_head (tools : List Tool) :
    ∀ tcs st st' u rest0, execToolCalls tools st tcs = Except.ok st' →
      st.newMessages = u :: rest0 →
      ∃ rest1, st'.newMessages = u :: rest1 := by
  intro tcs
  induction tcs with
  | nil =>
    intro st st' u rest0 h hh
    simp [execToolCalls] at h; subst h; exact ⟨rest0, hh⟩
  | cons tc rest ih =>
    intro st st' u rest0 h hh
    simp only [execToolCalls] at h
    cases hf : tools.find? (fun t => t.name == tc.name) with
    | none => rw [hf] at h; exact absurd h (by simp)
    | some t =>
      rw [hf] at h
      exact ih _ _ _ _ h (by rw [hh]; rfl)

/-- The loop rounds preserve the working-list invariant. -/
theorem agentLoop_inv (llm : List Msg → Msg) (tools : List Tool) (pre : List Msg) :
    ∀ fuel st st', agentLoop llm tools fuel st = Except.ok st' →
      st.messages = pre ++ st.newMessages →
      st'.messages = pre ++ st'.newMessages := by
  intro fuel
  induction fuel with
  | zero => intro st st' h hinv; simp [agentLoop] at h; subst h; exact hinv
  | succ n ih =>
    intro st st' h hinv
    simp only [agentLoop] at h
    by_cases hc : (llm st.messages).toolCalls.isEmpty
    · rw [if_pos hc] at h
      cases h
      simp [hinv]
    · rw [if_neg hc] at h
      cases he : execToolCalls tools
          { messages := st.messages ++ [llm st.messages],
            newMessages := st.newMessages ++ [llm st.messages] }
          (llm st.messages).toolCalls with
      | error e => rw [he] at h; exact absurd h (by simp)
      | ok st2 =>
        rw [he] at h
        exact ih _ _ h (execToolCalls_inv tools pre _ _ _ he (by simp [hinv]))

/-- The loop rounds only append, so the accumulator's first element is
preserved. -/
theorem agentLoop_head (llm : List Msg → Msg) (tools : List Tool) :
    ∀ fuel st st' u rest0, agentLoop llm tools fuel st = Except.ok st' →
      st.newMessages = u :: rest0 →
      ∃ rest1, st'.newMessages = u :: rest1 := by
  intro fuel
  induction fuel with
  | zero =>
    intro st st' u rest0 h hh
    simp [agentLoop] at h; subst h; exact ⟨rest0, hh⟩
  | succ n ih =>
    intro st st' u rest0 h hh
    simp only [agentLoop] at h
    by_cases hc : (llm st.messages).toolCalls.isEmpty
    · rw [if_pos hc] at h
      cases h
      exact ⟨rest0 ++ [llm st.messages], by simp [hh]⟩
    · rw [if_neg hc] at h
      cases he : execToolCalls tools
          { messages := st.messages ++ [llm st.messages],
            newMessages := st.newMessages ++ [llm st.messages] }
          (llm st.messages).toolCalls with
      | error e => rw [he] at h; exact absurd h (by simp)
      | ok st2 =>
        rw [he] at h
        obtain ⟨r1, h1⟩ :=
          execToolCalls_head tools _ _ _ u (rest0 ++ [llm st.messages]) he (by rw [hh]; rfl)
        exact ih _ _ _ _ h h1

/-! ### Claim theorems -/

/-- C2: the spec claims a tool call whose name is absent from the registry
yields a tool-result turn with content `Tool '<name>' is not available.`
and the loop continues.  The code instead indexes the dict
(`toolMap[name]`) before its `is None` guard, so an absent name raises
`KeyError` which escapes the loop to the dispatcher's catch-all: the run
is aborted and an error outcome with payload `'missing'` (the KeyError's
message) is emitted; no tool-result turn is produced.  The dead
`is not available` branch in the source shows the spec captures the
intent, so this is a code bug. -/
theorem missing_tool_keyerror_c2 :
    runAgents stubMissingLLM [echoTool] [] "q" = Except.error (keyErrorStr "missing") ∧
    runWorker missingToolEnv =
      [{ isSuccess := false, payload := "'missing'",
         senderID := "s1", workType := "chatAPI" }] :=
  ⟨rfl, rfl⟩

/-- C4: the tool-call loop never produces more than 6 assistant turns (one
per inference round, so at most 6 rounds are performed for every model
behaviour), and for the stub model that requests an available tool call on
every round the loop returns without raising with exactly 6 assistant
turns and at least 6 tool-result turns in the working message list. -/
theorem toolLoop_round_bound_c4 :
    (∀ (llm : List Msg → Msg) (tools : List Tool) (history : List Msg)
       (prompt content : String) (ms ns hist' : List Msg),
       runAgents llm tools history prompt = Except.ok (content, ms, ns, hist') →
       countRole Role.assistant ns ≤ 6) ∧
    (runAgents stubEchoLLM [echoTool] [] "q").map
        (fun (r : String × List Msg × List Msg × List Msg) =>
          (countRole Role.assistant r.2.1, decide (6 ≤ countRole Role.tool r.2.1))) =
      Except.ok (6, true) := by
  constructor
  · intro llm tools history prompt content ms ns hist' h
    simp only [runAgents] at h
    cases hl : agentLoop llm tools 6
        { messages := history ++ [Msg.userMsg prompt],
          newMessages := [Msg.userMsg prompt] } with
    | error e => rw [hl] at h; exact absurd h (by simp)
    | ok stF =>
      rw [hl] at h
      have hb := agentLoop_assistant_le llm tools 6 _ _ hl
      cases h
      simpa [countRole, Msg.userMsg] using hb
  · rfl

/-- Witness for C4: the round bound applied to the plain stub, whose run
is evaluated by rfl. -/
theorem toolLoop_round_bound_c4_witness :
    countRole Role.assistant
      [Msg.userMsg "q", { role := Role.assistant, content := "hi" }] ≤ 6 :=
  toolLoop_round_bound_c4.1 stubPlainLLM [] [] "q" "hi"
    [Msg.userMsg "q", { role := Role.assistant, content := "hi" }]
    [Msg.userMsg "q", { role := Role.assistant, content := "hi" }]
    [Msg.userMsg "q", { role := Role.assistant, content := "hi" }] rfl

/-- C7: a registered tool whose invocation raises yields a tool-result
turn with content `Tool '<name>' failed: <message>` appended to both
lists, and processing continues with the remaining calls instead of
propagating the exception; moreover a full loop run against an
always-raising tool returns without error, its final content being the
synthesized failure string. -/
theorem tool_failure_turn_c7 (tools : List Tool) (st : LoopSt) (tc : ToolCall)
    (rest : List ToolCall) (t : Tool) (e : String)
    (hfind : tools.find? (fun t0 => t0.name == tc.name) = some t)
    (hraise : t.invoke tc.args = Except.error e) :
    execToolCalls tools st (tc :: rest) =
      execToolCalls tools
        { messages := st.messages ++
            [Msg.toolMsg ("Tool '" ++ tc.name ++ "' failed: " ++ e) tc.callId],
          newMessages := st.newMessages ++
            [Msg.toolMsg ("Tool '" ++ tc.name ++ "' failed: " ++ e) tc.callId] }
        rest ∧
    (runAgents stubBoomLLM [boomTool] [] "q").map
        (fun (r : String × List Msg × List Msg × List Msg) => r.1) =
      Except.ok "Tool 'boom' failed: kaboom" := by
  constructor
  · simp only [execToolCalls, hfind, hraise]
  · rfl

/-- Witness for C7: the failure-turn equation at a concrete raising
tool. -/
theorem tool_failure_turn_c7_witness :
    execToolCalls [boomTool] { messages := [], newMessages := [] }
        [{ name := "boom", args := "x", callId := "id1" }] =
      execToolCalls [boomTool]
        { messages := [Msg.toolMsg "Tool 'boom' failed: kaboom" "id1"],
          newMessages := [Msg.toolMsg "Tool 'boom' failed: kaboom" "id1"] }
        [] :=
  (tool_failure_turn_c7 [boomTool] { messages := [], newMessages := [] }
    { name := "boom", args := "x", callId := "id1" } [] boomTool "kaboom"
    rfl rfl).1.trans (by rfl)

/-- C10: the shared conversation history is extended only after the round
loop has finished: when Worker.runAgents returns, the resulting history is
exactly the original history followed by the accumulator of new turns, the
accumulator starts with the new user turn, and the working message list is
the original history followed by that same accumulator (all produced
assistant and tool turns, in production order). -/
theorem history_append_after_loop_c10 (llm : List Msg → Msg) (tools : List Tool)
    (history : List Msg) (prompt content : String) (ms ns hist' : List Msg)
    (h : runAgents llm tools history prompt = Except.ok (content, ms, ns, hist')) :
    hist' = history ++ ns ∧ ns.head? = some (Msg.userMsg prompt) ∧
    ms = history ++ ns := by
  simp only [runAgents] at h
  cases hl : agentLoop llm tools 6
      { messages := history ++ [Msg.userMsg prompt],
        newMessages := [Msg.userMsg prompt] } with
  | error e => rw [hl] at h; exact absurd h (by simp)
  | ok stF =>
    rw [hl] at h
    obtain ⟨r1, h1⟩ := agentLoop_head llm tools 6 _ _ (Msg.userMsg prompt) [] hl rfl
    have hinv := agentLoop_inv llm tools history 6 _ _ hl (by simp)
    cases h
    exact ⟨rfl, by rw [h1]; rfl, hinv⟩

/-- Witness for C10: the frame property evaluated on the plain stub. -/
theorem history_append_after_loop_c10_witness :
    [Msg.userMsg "q", { role := Role.assistant, content := "hi" }] =
      ([] : List Msg) ++ [Msg.userMsg "q", { role := Role.assistant, content := "hi" }] ∧
    ([Msg.userMsg "q", { role := Role.assistant, content := "hi" }].head? =
      some (Msg.userMsg "q")) ∧
    [Msg.userMsg "q", { role := Role.assistant, content := "hi" }] =
      ([] : List Msg) ++ [Msg.userMsg "q", { role := Role.assistant, content := "hi" }] :=
  history_append_after_loop_c10 stubPlainLLM [] [] "q" "hi"
    [Msg.userMsg "q", { role := Role.assistant, content := "hi" }]
    [Msg.userMsg "q", { role := Role.assistant, content := "hi" }]
    [Msg.userMsg "q", { role := Role.assistant, content := "hi" }] rfl

/-- Counterexample to C1: a TextToSpeech request whose synthesis and file
write succeed makes one dispatcher execution emit zero outcomes, not
exactly one — the tts branch of Worker.run never emits `finished`. -/
theorem dispatch_single_outcome_c1_cex :
    runWorker ttsSilentEnv = [] ∧ ¬((runWorker ttsSilentEnv).length = 1) := by
  exact ⟨rfl, by decide⟩

/-- C1 (amended): for every work type other than tts, one dispatcher
execution emits exactly one terminal outcome; a tts execution emits at
most one (an outcome only on failure); and every emitted outcome carries
the request's sender id and work type. -/
theorem dispatch_outcome_identity_c1 (env : Env) :
    (env.workType ≠ "tts" → (runWorker env).length = 1) ∧
    (runWorker env).length ≤ 1 ∧
    (∀ o ∈ runWorker env, o.senderID = env.senderID ∧ o.workType = env.workType) := by
  unfold runWorker runBody
  by_cases h1 : env.workType = "chatAPI"
  · cases hc : chatBranch env <;> simp [beq_iff_eq, h1, hc, Except.map]
  · by_cases h2 : env.workType = "transcribeAudio"
    · cases hc : transcribeBranch env <;> simp [beq_iff_eq, h1, h2, hc, Except.map]
    · by_cases h3 : env.workType = "ingestRAG"
      · cases hc : ingestBranch env <;> simp [beq_iff_eq, h1, h2, h3, hc, Except.map]
      · by_cases h4 : env.workType = "tts"
        · cases hc : ttsBranch env <;> simp [beq_iff_eq, h1, h2, h3, h4, hc, Except.map]
        · simp [beq_iff_eq, h1, h2, h3, h4]

/-- Witness for C1: an ingestRAG run emits exactly one outcome. -/
theorem dispatch_outcome_identity_c1_witness :
    (runWorker { workType := "ingestRAG", senderID := "w1" }).length = 1 :=
  (dispatch_outcome_identity_c1 { workType := "ingestRAG", senderID := "w1" }).1
    (by decide)

/-- C5: an exception raised inside a per-kind handler — the audio parser,
the ingestion routine, the speech synthesis call, or the plain model
invocation of the chat handler — is caught by Worker.run's catch-all and
converted into a single error outcome carrying the exception's message,
the sender id and the work type; and in general every error of the
handler body yields exactly that single failure outcome — the dispatcher
itself never raises (`runWorker` is a total function into outcome
lists). -/
theorem dispatch_failure_outcome_c5 (env : Env) (e : String)
    (h : (env.workType = "transcribeAudio" ∧ env.parseAudio env.path = Except.error e) ∨
         (env.workType = "ingestRAG" ∧ env.ingestPaths env.filePaths = Except.error e) ∨
         (env.workType = "tts" ∧ env.ttsCreate env.content = Except.error e) ∨
         (env.workType = "chatAPI" ∧ env.ragRunnable = none ∧ env.pdfFilePath = "" ∧
           env.agentTools = none ∧
           env.runnableInvoke (assembledPrompt env.prompt [] "" env.selectedText) =
             Except.error e)) :
    runWorker env = [{ isSuccess := false, payload := e,
                       senderID := env.senderID, workType := env.workType }] ∧
    (∀ (env' : Env) (e' : String), runBody env' = Except.error e' →
      runWorker env' = [{ isSuccess := false, payload := e',
                          senderID := env'.senderID, workType := env'.workType }]) := by
  refine ⟨?_, fun env' e' h' => by simp [runWorker, h']⟩
  rcases h with ⟨hwt, herr⟩ | ⟨hwt, herr⟩ | ⟨hwt, herr⟩ | ⟨hwt, hrag, hpdf, htools, herr⟩
  · simp [runWorker, runBody, transcribeBranch, hwt, herr, Except.map]
  · simp [runWorker, runBody, ingestBranch, hwt, herr, Except.map]
  · simp [runWorker, runBody, ttsBranch, hwt, herr, Except.bind, Except.map]
  · simp [runWorker, runBody, chatBranch, hwt, hrag, hpdf, htools, herr, Except.bind, Except.map]

/-- Witness for C5: a failing audio parser yields the single error
outcome. -/
theorem dispatch_failure_outcome_c5_witness :
    runWorker { workType := "transcribeAudio", senderID := "s3",
                parseAudio := fun _ => Except.error "corrupt file" } =
      [{ isSuccess := false, payload := "corrupt file",
         senderID := "s3", workType := "transcribeAudio" }] :=
  (dispatch_failure_outcome_c5
    { workType := "transcribeAudio", senderID := "s3",
      parseAudio := fun _ => Except.error "corrupt file" }
    "corrupt file" (Or.inl ⟨rfl, rfl⟩)).1

/-- C8: a work type matching none of the four handled kinds (so in
particular any kind outside the five the spec names; the source has no
pdfExtraction branch, so that kind lands here too) yields exactly the
single failure outcome with reason `Unknown work type`, carrying the
sender id and work type, and the dispatcher does not raise. -/
theorem unknown_workType_failure_c8 (env : Env)
    (h1 : env.workType ≠ "chatAPI") (h2 : env.workType ≠ "transcribeAudio")
    (h3 : env.workType ≠ "ingestRAG") (h4 : env.workType ≠ "tts") :
    runWorker env = [{ isSuccess := false, payload := "Unknown work type",
                       senderID := env.senderID, workType := env.workType }] := by
  simp [runWorker, runBody, beq_iff_eq, h1, h2, h3, h4]

/-- Witness for C8: an unrecognised kind produces the unknown-work-type
failure. -/
theorem unknown_workType_failure_c8_witness :
    runWorker { workType := "pdfExtraction", senderID := "r1" } =
      [{ isSuccess := false, payload := "Unknown work type",
         senderID := "r1", workType := "pdfExtraction" }] :=
  unknown_workType_failure_c8 { workType := "pdfExtraction", senderID := "r1" }
    (by decide) (by decide) (by decide) (by decide)

/-- C9: an ingestRAG request whose ingestion routine reports n chunks
yields the single success outcome with content
`Success | Chunks indexed: <n>`, carrying the sender id and work type. -/
theorem ingest_success_content_c9 (env : Env) (n : Nat)
    (hwt : env.workType = "ingestRAG")
    (hok : env.ingestPaths env.filePaths = Except.ok n) :
    runWorker env = [{ isSuccess := true,
                       payload := "Success | Chunks indexed: " ++ toString n,
                       senderID := env.senderID, workType := env.workType }] := by
  simp [runWorker, runBody, ingestBranch, hwt, hok, Except.map]

/-- Witness for C9: nine indexed chunks yield the outcome content
`Success | Chunks indexed: 9` for request r2. -/
theorem ingest_success_content_c9_witness :
    runWorker { workType := "ingestRAG", senderID := "r2",
                filePaths := ["doc1.txt", "doc2.txt"],
                ingestPaths := fun _ => Except.ok 9 } =
      [{ isSuccess := true, payload := "Success | Chunks indexed: 9",
         senderID := "r2", workType := "ingestRAG" }] :=
  ingest_success_content_c9
    { workType := "ingestRAG", senderID := "r2",
      filePaths := ["doc1.txt", "doc2.txt"],
      ingestPaths := fun _ => Except.ok 9 } 9 rfl rfl

/-- C6: with retrieval producing `alpha` and `beta` the assembled chat
prompt contains the `Context:` block, wrapped exactly as
`Context:\n---\nalpha\n\nbeta\n---\n` and positioned before the selected
text; with retrieval producing nothing the assembled prompt is exactly
base prompt, PDF context and selected text with no block inserted. -/
theorem rag_context_block_c6 (p pdf sel : String) :
    (∃ a b, assembledPrompt p ["alpha", "beta"] pdf sel =
      a ++ "Context:\n---\nalpha\n\nbeta\n---\n" ++ b ++ sel) ∧
    assembledPrompt p [] pdf sel = p ++ pdf ++ sel := by
  constructor
  · refine ⟨p ++ "\n\n", pdf, ?_⟩
    have h : ragContextOf ["alpha", "beta"] =
        "\n\n" ++ "Context:\n---\nalpha\n\nbeta\n---\n" := rfl
    simp only [assembledPrompt, h, String.append_assoc]
  · have h0 : ragContextOf ([] : List String) = "" := rfl
    simp [assembledPrompt, h0]

/-- Counterexample to C3: invoking setSystemPrompt twice with the same
prompt name appends the system turn twice — the history then contains two
system turns, so re-injection is not guarded (the systemPromptInjected
flag is written but never consulted). -/
theorem systemPrompt_injection_c3_cex :
    setSystemPrompt promptConfigC3 procState0 "p" = Except.ok procState1 ∧
    setSystemPrompt promptConfigC3 procState1 "p" = Except.ok procState2 ∧
    countRole Role.system procState2.messageHistory = 2 := by
  exact ⟨rfl, rfl, rfl⟩

/-- C3 (amended): every successful invocation of the system-prompt
injection appends exactly one new SystemMessage to the end of the history
(so n injections yield n system turns — the injection is not guarded
against repetition). -/
theorem systemPrompt_injection_c3 (config : List SystemPromptEntry)
    (st st' : ProcState) (promptName : String)
    (h : setSystemPrompt config st promptName = Except.ok st') :
    st'.messageHistory = st.messageHistory ++ [Msg.systemMsg st'.systemPrompt] ∧
    countRole Role.system st'.messageHistory =
      countRole Role.system st.messageHistory + 1 := by
  simp only [setSystemPrompt] at h
  cases hf : config.find? (fun p => p.name == promptName) with
  | none => rw [hf] at h; exact absurd h (by simp)
  | some p =>
    rw [hf] at h
    cases h
    simp [countRole_append, countRole, Msg.systemMsg]

/-- Witness for C3: the append property at the concrete configuration. -/
theorem systemPrompt_injection_c3_witness :
    procState1.messageHistory =
      procState0.messageHistory ++ [Msg.systemMsg procState1.systemPrompt] ∧
    countRole Role.system procState1.messageHistory =
      countRole Role.system procState0.messageHistory + 1 :=
  systemPrompt_injection_c3 promptConfigC3 procState0 procState1 "p" rfl
